import Mathlib

/-!
Verification development for the `LLM4Beh` repository (`ex1/health.ipynb`).

The notebook predicts human perceptions of health-state severity from text,
once by extracting frozen embeddings from `distilbert-base-uncased` and
regressing on them with `RidgeCV`, once by fine-tuning the transformer
end-to-end.  All nontrivial numerics are delegated to third-party libraries
(HuggingFace `transformers`/`datasets`, `torch`, `sklearn`, `evaluate`);
the notebook itself is orchestration glue.  We embed that glue shallowly:

* rows of the dataset become a `Row` structure (text, float label, and the
  columns the pipeline adds);
* the library calls are embedded by their documented semantics with the
  exact arguments the notebook passes (padding="max_length",
  truncation=True, batch_size=8, test_size=0.2, seed=42, ...);
* the transformer forward pass itself is abstracted by a parameter
  function `F` of the model weights and the model inputs — the spec's
  non-goals put reimplementing the transformer runtime out of scope, and
  none of the claims depends on its numeric values, only on shapes and on
  which inputs it is given;
* floating-point numbers are modelled by `ℚ`.
-/

namespace Health

/-! ### Tokenization

`batch_tokenize = lambda batch: tokenizer(batch['text'], padding="max_length", truncation=True)`
applied via `dat.map(batch_tokenize, batched=True, batch_size=8)`.

The tokenizer is `AutoTokenizer.from_pretrained('distilbert-base-uncased')`
with `model_max_length = 512` and pad token id 0.  Its sub-word encoding of
a given text (the `[CLS] … [SEP]` id sequence before padding/truncation) is
abstracted as a function `encode : String → List Nat`; with the arguments
the notebook passes, the library truncates that sequence to
`model_max_length` and pads it with the pad token up to `model_max_length`,
with an attention mask that is 1 on the kept real tokens and 0 on padding. -/

/-- `tokenizer.model_max_length` for `distilbert-base-uncased` (printed by the
notebook: "max context length: 512"). -/
def model_max_length : Nat := 512

/-- The `[PAD]` token id of `distilbert-base-uncased`. -/
def pad_token_id : Nat := 0

/-- `tokenizer.model_input_names` for DistilBERT (printed by the notebook:
"Model inputs: ['input_ids', 'attention_mask']"). -/
def model_input_names : List String := ["input_ids", "attention_mask"]

/-- One tokenizer output: the two columns the tokenizer returns. -/
structure Encoding where
  input_ids : List Nat
  attention_mask : List Nat
deriving Repr, DecidableEq

/-- The tokenizer applied to one text whose raw sub-word encoding is `raw`,
with `padding="max_length", truncation=True`: truncate to
`model_max_length`, pad with `pad_token_id` up to `model_max_length`,
mask 1 on real tokens and 0 on padding. -/
def tokenize_one (raw : List Nat) : Encoding :=
  let ts := raw.take model_max_length
  { input_ids := ts ++ List.replicate (model_max_length - ts.length) pad_token_id
    attention_mask := List.replicate ts.length 1 ++ List.replicate (model_max_length - ts.length) 0 }

/-- `batch_tokenize`: the tokenizer maps over the batch's list of texts;
`encode` abstracts the sub-word encoding of a single text. -/
def batch_tokenize (encode : String → List Nat) (texts : List String) : List Encoding :=
  texts.map (fun t => tokenize_one (encode t))

theorem tokenize_one_input_ids_length (raw : List Nat) :
    (tokenize_one raw).input_ids.length = model_max_length := by
  simp only [tokenize_one, List.length_append, List.length_replicate, List.length_take]
  omega

theorem tokenize_one_attention_mask_length (raw : List Nat) :
    (tokenize_one raw).attention_mask.length = model_max_length := by
  simp only [tokenize_one, List.length_append, List.length_replicate, List.length_take]
  omega

theorem tokenize_one_mask_real (raw : List Nat) (i : Nat)
    (hi : i < min raw.length model_max_length) :
    (tokenize_one raw).attention_mask.getD i 0 = 1 ∧
      (tokenize_one raw).input_ids.getD i 0 = raw.getD i 0 := by
  have htk : (raw.take model_max_length).length = min model_max_length raw.length := by
    simp [List.length_take]
  have hlt : i < (raw.take model_max_length).length := by omega
  constructor
  · rw [tokenize_one]
    simp only [List.getD_eq_getElem?_getD]
    rw [List.getElem?_append_left (by simpa using hlt), List.getElem?_replicate, if_pos hlt]
    rfl
  · rw [tokenize_one]
    simp only [List.getD_eq_getElem?_getD]
    rw [List.getElem?_append_left hlt, List.getElem?_take,
      if_pos (show i < model_max_length by omega)]

theorem tokenize_one_mask_pad (raw : List Nat) (i : Nat)
    (hlow : min raw.length model_max_length ≤ i) (hi : i < model_max_length) :
    (tokenize_one raw).attention_mask.getD i 1 = 0 ∧
      (tokenize_one raw).input_ids.getD i 0 = pad_token_id := by
  have htk : (raw.take model_max_length).length = min model_max_length raw.length := by
    simp [List.length_take]
  have hge : (raw.take model_max_length).length ≤ i := by omega
  constructor
  · rw [tokenize_one]
    simp only [List.getD_eq_getElem?_getD]
    rw [List.getElem?_append_right (by simpa using hge)]
    simp only [List.length_replicate]
    rw [List.getElem?_replicate,
      if_pos (show i - (raw.take model_max_length).length
        < model_max_length - (raw.take model_max_length).length by omega)]
    rfl
  · rw [tokenize_one]
    simp only [List.getD_eq_getElem?_getD]
    rw [List.getElem?_append_right hge, List.getElem?_replicate,
      if_pos (show i - (raw.take model_max_length).length
        < model_max_length - (raw.take model_max_length).length by omega)]
    rfl

/-! ### Dataset rows and the batched `Dataset.map` -/

/-- One row of the dataset: the CSV provides `text` and `labels`; the
pipeline's `map` calls add the remaining columns. -/
structure Row where
  text : String
  labels : ℚ
  input_ids : Option (List Nat) := none
  attention_mask : Option (List Nat) := none
  hidden_state : Option (List ℚ) := none
deriving Repr, DecidableEq, Inhabited

/-- `Dataset.from_pandas(dat)`: the data frame's (text, labels) records become
dataset rows with no extra columns. -/
def from_pandas (df : List (String × ℚ)) : List Row :=
  df.map fun p => { text := p.1, labels := p.2 }

/-- `Dataset.map(fn, batched=True, batch_size=8)`: the rows are processed in
consecutive chunks of 8 and the per-chunk results concatenated. -/
def mapBatched (f : List Row → List Row) (l : List Row) : List Row :=
  if h : l = [] then [] else f (l.take 8) ++ mapBatched f (l.drop 8)
termination_by l.length
decreasing_by
  rw [List.length_drop]
  have := List.length_pos.mpr h
  omega

theorem mapBatched_map (g : Row → Row) (l : List Row) :
    mapBatched (List.map g) l = l.map g := by
  have key : ∀ n : Nat, ∀ l : List Row, l.length ≤ n →
      mapBatched (List.map g) l = l.map g := by
    intro n
    induction n with
    | zero =>
        intro l hl
        have : l = [] := List.eq_nil_of_length_eq_zero (by omega)
        subst this
        rw [mapBatched]
        simp
    | succ n ih =>
        intro l hl
        by_cases h : l = []
        · subst h
          rw [mapBatched]
          simp
        · have hpos := List.length_pos.mpr h
          rw [mapBatched, dif_neg h,
            ih (l.drop 8) (by rw [List.length_drop]; omega),
            ← List.map_append, List.take_append_drop]
  exact key l.length l le_rfl

/-! ### The transformer model -/

/-- The hidden size of `distilbert-base-uncased`. -/
def hidden_size : Nat := 768

/-- The weights of a loaded pre-trained model, flattened to one list. -/
structure ModelState where
  params : List ℚ
deriving Repr, DecidableEq, Inhabited

/-- The `last_hidden_state` of the DistilBERT forward pass on one sample: one
`hidden_size`-vector per input position.  The numeric entry at position `p`,
dimension `d` is abstracted by `F θ input_ids attention_mask p d` — the
spec's non-goals place reimplementing the transformer runtime out of scope,
and the claims depend only on the result's shape and on which arguments
reach the model. -/
def last_hidden_state (F : List ℚ → List Nat → List Nat → Nat → Nat → ℚ)
    (θ : List ℚ) (ids mask : List Nat) : List (List ℚ) :=
  (List.range ids.length).map fun p => (List.range hidden_size).map fun d => F θ ids mask p d

/-- A column of a `datasets` batch dictionary. -/
inductive Col where
  | nats : List (List Nat) → Col
  | rats : List ℚ → Col
  | strs : List String → Col
  | mat : List (List ℚ) → Col
deriving Repr, DecidableEq

/-- The batch dictionary `datasets` passes to `extract_features` after
`dat.set_format('torch', columns=['input_ids', 'attention_mask', 'labels'])`:
the three formatted columns, restricted to the chunk's rows. -/
def batchOf (c : List Row) : List (String × Col) :=
  [("input_ids", Col.nats (c.map fun r => r.input_ids.getD [])),
   ("attention_mask", Col.nats (c.map fun r => r.attention_mask.getD [])),
   ("labels", Col.rats (c.map Row.labels))]

/-- `extract_features(batch)`: filters the batch dictionary to the keys in
`tokenizer.model_input_names`, runs the model on those inputs under
`torch.no_grad()`, and returns the hidden vector at position 0 (the `[CLS]`
token) for each sample.  `.to(device)` and `.cpu().numpy()` are identity on
the values themselves. -/
def extract_features (F : List ℚ → List Nat → List Nat → Nat → Nat → ℚ)
    (θ : List ℚ) (b : List (String × Col)) : List (String × Col) :=
  let inputs := b.filter fun kv => kv.1 ∈ model_input_names
  let ids := match inputs.lookup "input_ids" with
    | some (Col.nats v) => v
    | _ => []
  let mask := match inputs.lookup "attention_mask" with
    | some (Col.nats v) => v
    | _ => []
  [("hidden_state",
    Col.mat ((ids.zip mask).map fun im => (last_hidden_state F θ im.1 im.2).headI))]

/-- One chunk of `dat.map(extract_features, batched=True, batch_size=8)`: the
returned `hidden_state` column is merged back into the chunk's rows. -/
def extractChunk (F : List ℚ → List Nat → List Nat → Nat → Nat → ℚ)
    (θ : List ℚ) (c : List Row) : List Row :=
  let hs := match (extract_features F θ (batchOf c)).lookup "hidden_state" with
    | some (Col.mat v) => v
    | _ => []
  c.zipWith (fun r h => { r with hidden_state := some h }) hs

theorem extractChunk_eq_map (F : List ℚ → List Nat → List Nat → Nat → Nat → ℚ)
    (θ : List ℚ) (c : List Row) :
    extractChunk F θ c = c.map fun r =>
      { r with hidden_state := some ((last_hidden_state F θ (r.input_ids.getD [])
        (r.attention_mask.getD [])).headI) } := by
  unfold extractChunk extract_features batchOf
  simp only [model_input_names, List.filter, List.lookup, List.mem_cons,
    List.not_mem_nil, or_false]
  norm_num
  rw [show ("attention_mask" == "input_ids") = false from by decide]
  dsimp only
  rw [List.zip_map', List.map_map, List.zipWith_map_right, List.zipWith_same]
  rfl

/-- One chunk of `dat.map(batch_tokenize, batched=True, batch_size=8)`: the
`input_ids` and `attention_mask` columns returned by the tokenizer are
merged into the chunk's rows. -/
def tokenizeChunk (encode : String → List Nat) (c : List Row) : List Row :=
  c.zipWith
    (fun r e => { r with input_ids := some e.input_ids, attention_mask := some e.attention_mask })
    (batch_tokenize encode (c.map Row.text))

theorem tokenizeChunk_eq_map (encode : String → List Nat) (c : List Row) :
    tokenizeChunk encode c = c.map fun r =>
      { r with input_ids := some (tokenize_one (encode r.text)).input_ids,
               attention_mask := some (tokenize_one (encode r.text)).attention_mask } := by
  unfold tokenizeChunk batch_tokenize
  rw [List.map_map, List.zipWith_map_right, List.zipWith_same]
  rfl

/-- The full `dat.map(extract_features, batched=True, batch_size=8)` with the
model state threaded explicitly.  The Python `extract_features` reads the
global `model` and never assigns to it — inference runs under
`torch.no_grad()` and no optimizer touches the weights — so the state passed
on to the next chunk is the state the current chunk received. -/
def runExtractMap (F : List ℚ → List Nat → List Nat → Nat → Nat → ℚ)
    (st : ModelState) (l : List Row) : ModelState × List Row :=
  if h : l = [] then (st, [])
  else
    let step : ModelState × List Row := (st, extractChunk F st.params (l.take 8))
    let rest := runExtractMap F step.1 (l.drop 8)
    (rest.1, step.2 ++ rest.2)
termination_by l.length
decreasing_by
  rw [List.length_drop]
  have := List.length_pos.mpr h
  omega

theorem runExtractMap_fst (F : List ℚ → List Nat → List Nat → Nat → Nat → ℚ)
    (st : ModelState) (l : List Row) : (runExtractMap F st l).1 = st := by
  have key : ∀ n : Nat, ∀ l : List Row, l.length ≤ n → ∀ st : ModelState,
      (runExtractMap F st l).1 = st := by
    intro n
    induction n with
    | zero =>
        intro l hl st
        have : l = [] := List.eq_nil_of_length_eq_zero (by omega)
        subst this
        rw [runExtractMap]
        simp
    | succ n ih =>
        intro l hl st
        by_cases h : l = []
        · subst h
          rw [runExtractMap]
          simp
        · have hpos := List.length_pos.mpr h
          rw [runExtractMap, dif_neg h]
          exact ih (l.drop 8) (by rw [List.length_drop]; omega) st
  exact key l.length l le_rfl st

theorem runExtractMap_snd (F : List ℚ → List Nat → List Nat → Nat → Nat → ℚ)
    (st : ModelState) (l : List Row) :
    (runExtractMap F st l).2 = mapBatched (extractChunk F st.params) l := by
  have key : ∀ n : Nat, ∀ l : List Row, l.length ≤ n →
      (runExtractMap F st l).2 = mapBatched (extractChunk F st.params) l := by
    intro n
    induction n with
    | zero =>
        intro l hl
        have : l = [] := List.eq_nil_of_length_eq_zero (by omega)
        subst this
        rw [runExtractMap, mapBatched]
        simp
    | succ n ih =>
        intro l hl
        by_cases h : l = []
        · subst h
          rw [runExtractMap, mapBatched]
          simp
        · have hpos := List.length_pos.mpr h
          rw [runExtractMap, dif_neg h, mapBatched, dif_neg h]
          have hdrop : (l.drop 8).length ≤ n := by rw [List.length_drop]; omega
          simpa using congrArg (extractChunk F st.params (l.take 8) ++ ·) (ih (l.drop 8) hdrop)
  exact key l.length l le_rfl

/-! ### `set_format` -/

/-- A HF `Dataset` with its output format: `set_format` controls which
columns `dat[i]` presents and as what tensor type, without touching the
stored rows. -/
structure FormattedDataset where
  rows : List Row
  format_type : Option String := none
  format_columns : Option (List String) := none
deriving Repr, DecidableEq

/-- `dat.set_format('torch', columns=['input_ids', 'attention_mask', 'labels'])`:
records the output format; the underlying rows are untouched. -/
def set_format (d : FormattedDataset) (ftype : String) (cols : List String) : FormattedDataset :=
  { d with format_type := some ftype, format_columns := some cols }

/-! ### Train/test splits -/

/-- Number of test rows for a fractional `test_size` — the rule shared by
sklearn's `_validate_shuffle_split` and `datasets.train_test_split`:
`⌈test_size · n⌉`. -/
def n_test (n : Nat) (test_size : ℚ) : Nat := (⌈(n : ℚ) * test_size⌉).toNat

/-- Number of train rows: `⌊(1 − test_size) · n⌋`. -/
def n_train (n : Nat) (test_size : ℚ) : Nat := (⌊(n : ℚ) * (1 - test_size)⌋).toNat

/-- `dat.train_test_split(test_size=0.2, seed=42)`: the seeded shuffle is a
permutation `perm` of the row indices `0..n-1`; the first `n_test` shuffled
indices form the test split, the next `n_train` the train split
(train, test returned in that order here). -/
def train_test_split (perm : List Nat) (test_size : ℚ) (ds : List Row) : List Row × List Row :=
  let nt := n_test ds.length test_size
  let ntr := n_train ds.length test_size
  (((perm.drop nt).take ntr).map fun i => ds.getD i default,
   (perm.take nt).map fun i => ds.getD i default)

/-- `embeds = pd.DataFrame(dat['hidden_state'])`: the design matrix whose
rows are the `hidden_state` column. -/
def embeds (ds : List Row) : List (List ℚ) := ds.map fun r => r.hidden_state.getD []

/-- `sklearn.model_selection.train_test_split(embeds, dat['labels'], random_state=42)`
with the default `test_size=0.25`: returns `(X_train, X_test, y_train, y_test)`,
the shuffled train/test rows of the design matrix and of the labels. -/
def sk_train_test_split (perm : List Nat) (X : List (List ℚ)) (y : List ℚ) :
    List (List ℚ) × List (List ℚ) × List ℚ × List ℚ :=
  let nt := n_test X.length (1/4)
  let ntr := n_train X.length (1/4)
  (((perm.drop nt).take ntr).map fun i => X.getD i [],
   (perm.take nt).map fun i => X.getD i [],
   ((perm.drop nt).take ntr).map fun i => y.getD i 0,
   (perm.take nt).map fun i => y.getD i 0)

/-! ### Device selection -/

/-- The torch devices the notebook can select. -/
inductive Device where
  | cuda
  | mps
  | cpu
deriving Repr, DecidableEq

/-- The notebook's single device-selection cell:
`if torch.cuda.is_available(): device = 'cuda' elif torch.backends.mps.is_available(): device = 'mps' else: device = 'cpu'`. -/
def selectDevice (cuda_available mps_available : Bool) : Device :=
  if cuda_available then Device.cuda
  else if mps_available then Device.mps
  else Device.cpu

/-- The devices used by the notebook's subsequent device-dependent
operations, in order: `AutoModel.from_pretrained(model_ckpt).to(device)`,
the per-batch `v.to(device)` inside `extract_features`, and
`AutoModelForSequenceClassification.from_pretrained(...).to(device)`.
Each site reads the one global `device` computed by `selectDevice`. -/
def deviceUses (cuda_available mps_available : Bool) : List Device :=
  [selectDevice cuda_available mps_available,
   selectDevice cuda_available mps_available,
   selectDevice cuda_available mps_available]

/-! ### The notebook's step trace -/

/-- The operation categories of the spec's pipeline sentence. -/
inductive Step where
  | loadCSV
  | tokenize
  | loadModel
  | extractFeat
  | regress
  | fineTune
  | printResult
deriving Repr, DecidableEq

/-- The notebook's operations in top-to-bottom execution order, at the
granularity of the `Step` categories: `pd.read_csv('health.csv')`;
`dat.map(batch_tokenize, ...)`; `AutoModel.from_pretrained(model_ckpt)`;
`dat.map(extract_features, ...)`; `regr.fit(X_train, y_train)` and
`regr.score(X_test, y_test)`; the cell output displaying the test-R²
string; `AutoModelForSequenceClassification.from_pretrained(model_ckpt, num_labels=1)`;
`trainer.train()`; and the metrics/results printed by the training run. -/
def notebookTrace : List Step :=
  [Step.loadCSV, Step.tokenize, Step.loadModel, Step.extractFeat,
   Step.regress, Step.printResult, Step.loadModel, Step.fineTune, Step.printResult]

/-! ### The R² metric -/

/-- Arithmetic mean. -/
def mean (l : List ℚ) : ℚ := l.sum / l.length

/-- Residual sum of squares `Σ (yᵢ − ŷᵢ)²`. -/
def ss_res (preds refs : List ℚ) : ℚ :=
  ((preds.zip refs).map fun pr => (pr.2 - pr.1) ^ 2).sum

/-- Total sum of squares `Σ (yᵢ − ȳ)²`. -/
def ss_tot (refs : List ℚ) : ℚ :=
  (refs.map fun y => (y - mean refs) ^ 2).sum

/-- The coefficient of determination computed by both library metrics the
notebook calls — the `evaluate` metric `"r_squared"` and sklearn's
`r2_score`, which `RidgeCV.score` delegates to: `1 − SS_res/SS_tot`
(the documented formula of both). -/
def r_squared (preds refs : List ℚ) : ℚ := 1 - ss_res preds refs / ss_tot refs

/-- `compute_metrics(eval_preds)` from the notebook: unpacks predictions and
labels and returns `{"r_squared": metric.compute(predictions=preds, references=labels)}`. -/
def compute_metrics (eval_preds : List ℚ × List ℚ) : List (String × ℚ) :=
  [("r_squared", r_squared eval_preds.1 eval_preds.2)]

/-- `regr.score(X_test, y_test)`: sklearn's `RegressorMixin.score`, the R²
of `regr.predict(X_test)` against `y_test`; `predict` abstracts the fitted
ridge predictor. -/
def regr_score (predict : List ℚ → ℚ) (X : List (List ℚ)) (y : List ℚ) : ℚ :=
  r_squared (X.map predict) y

/-- Spec-side reading of the metric: the variance of the residuals, i.e. the
mean squared residual. -/
def residual_variance (preds refs : List ℚ) : ℚ :=
  mean ((preds.zip refs).map fun pr => (pr.2 - pr.1) ^ 2)

/-- Spec-side reading of the metric: the total variance of the labels. -/
def label_variance (refs : List ℚ) : ℚ :=
  mean (refs.map fun y => (y - mean refs) ^ 2)

/-! ### Error propagation -/

/-- The notebook's execution as the sequential composition of its fallible
library calls (`pd.read_csv`, the tokenizer and the two model downloads)
with the pure transformations between them.  The notebook defines no
try/except of its own, so every stage's error reaches the end of the run
through the monadic bind unchanged. -/
def runNotebook (readCSV : Except String (List (String × ℚ)))
    (loadTokenizer : Except String (String → List Nat))
    (loadModel : Except String ModelState)
    (loadModel2 : Except String ModelState)
    (F : List ℚ → List Nat → List Nat → Nat → Nat → ℚ)
    (perm : List Nat) : Except String (List Row × List Row) := do
  let df ← readCSV
  let ds0 := from_pandas df
  let encode ← loadTokenizer
  let ds1 := mapBatched (tokenizeChunk encode) ds0
  let m ← loadModel
  let ds2 := (runExtractMap F m ds1).2
  let _m2 ← loadModel2
  pure (train_test_split perm (1 / 5) ds2)

/-! ### Sample inputs used to instantiate the theorems -/

/-- A tokenized sample row. -/
def sampleRow : Row :=
  { text := "x", labels := 0,
    input_ids := some (List.replicate model_max_length 0),
    attention_mask := some (List.replicate model_max_length 1) }

/-- A 777-row dataset of tokenized sample rows. -/
def sampleDataset : List Row := List.replicate 777 sampleRow

/-- A trivial instance of the abstract transformer entry function. -/
def F0 : List ℚ → List Nat → List Nat → Nat → Nat → ℚ := fun _ _ _ _ _ => 0

/-! ### Claim theorems -/

/-- C1: for every row of the dataset (every text of a batch),
`batch_tokenize` — the tokenizer called with `padding="max_length"` and
`truncation=True` — produces an `input_ids` sequence and an
`attention_mask` of equal fixed length, the tokenizer's
`model_max_length` of 512, with `attention_mask` 1 at every position
holding a real (non-padding) token and 0 at every padding position. -/
theorem batch_tokenize_fixed_length_and_mask
    (encode : String → List Nat) (texts : List String) (t : String) (ht : t ∈ texts) :
    model_max_length = 512 ∧
    tokenize_one (encode t) ∈ batch_tokenize encode texts ∧
    (tokenize_one (encode t)).input_ids.length = model_max_length ∧
    (tokenize_one (encode t)).attention_mask.length = model_max_length ∧
    (∀ i, i < min (encode t).length model_max_length →
      (tokenize_one (encode t)).attention_mask.getD i 0 = 1 ∧
      (tokenize_one (encode t)).input_ids.getD i 0 = (encode t).getD i 0) ∧
    (∀ i, min (encode t).length model_max_length ≤ i → i < model_max_length →
      (tokenize_one (encode t)).attention_mask.getD i 1 = 0 ∧
      (tokenize_one (encode t)).input_ids.getD i 0 = pad_token_id) :=
  ⟨rfl, List.mem_map_of_mem _ ht, tokenize_one_input_ids_length _,
    tokenize_one_attention_mask_length _, fun i hi => tokenize_one_mask_real _ i hi,
    fun i h1 h2 => tokenize_one_mask_pad _ i h1 h2⟩

/-- Witness for C1 at the one-text batch `["hi"]` with a three-token raw
encoding. -/
theorem batch_tokenize_fixed_length_and_mask_witness :
    ("hi" ∈ ["hi"]) ∧
    (model_max_length = 512 ∧
    tokenize_one ((fun _ : String => [101, 7592, 102]) "hi") ∈
      batch_tokenize (fun _ : String => [101, 7592, 102]) ["hi"] ∧
    (tokenize_one ((fun _ : String => [101, 7592, 102]) "hi")).input_ids.length
      = model_max_length ∧
    (tokenize_one ((fun _ : String => [101, 7592, 102]) "hi")).attention_mask.length
      = model_max_length ∧
    (∀ i, i < min ((fun _ : String => [101, 7592, 102]) "hi").length model_max_length →
      (tokenize_one ((fun _ : String => [101, 7592, 102]) "hi")).attention_mask.getD i 0 = 1 ∧
      (tokenize_one ((fun _ : String => [101, 7592, 102]) "hi")).input_ids.getD i 0
        = ((fun _ : String => [101, 7592, 102]) "hi").getD i 0) ∧
    (∀ i, min ((fun _ : String => [101, 7592, 102]) "hi").length model_max_length ≤ i →
        i < model_max_length →
      (tokenize_one ((fun _ : String => [101, 7592, 102]) "hi")).attention_mask.getD i 1 = 0 ∧
      (tokenize_one ((fun _ : String => [101, 7592, 102]) "hi")).input_ids.getD i 0
        = pad_token_id)) :=
  ⟨by simp,
    batch_tokenize_fixed_length_and_mask (fun _ => [101, 7592, 102]) ["hi"] "hi" (by simp)⟩

theorem last_hidden_state_headI_length
    (F : List ℚ → List Nat → List Nat → Nat → Nat → ℚ) (θ : List ℚ)
    (ids mask : List Nat) (h : ids ≠ []) :
    ((last_hidden_state F θ ids mask).headI).length = hidden_size := by
  unfold last_hidden_state
  cases ids with
  | nil => exact absurd rfl h
  | cons a as =>
      rw [List.length_cons, List.range_succ_eq_map]
      simp

/-- C2: `extract_features` returns exactly one fixed-size embedding vector
per input row — the hidden state at position 0 (the `[CLS]` token), of
dimension the model's hidden size 768 — so after mapping it over the
777-row dataset the `hidden_state` feature has shape 777 × 768, and the
design matrix `embeds` handed to the separate RidgeCV regression has the
same 777 × 768 shape. -/
theorem extract_features_one_vector_per_row
    (F : List ℚ → List Nat → List Nat → Nat → Nat → ℚ) (st : ModelState) (ds : List Row)
    (hlen : ds.length = 777)
    (hids : ∀ r ∈ ds, (r.input_ids.getD []).length = model_max_length) :
    hidden_size = 768 ∧
    (runExtractMap F st ds).2 = ds.map (fun r =>
      { r with hidden_state := some ((last_hidden_state F st.params (r.input_ids.getD [])
          (r.attention_mask.getD [])).headI) }) ∧
    (runExtractMap F st ds).2.length = 777 ∧
    (∀ r ∈ (runExtractMap F st ds).2, (r.hidden_state.getD []).length = 768) ∧
    (embeds (runExtractMap F st ds).2).length = 777 ∧
    (∀ v ∈ embeds (runExtractMap F st ds).2, v.length = 768) := by
  have hfun : extractChunk F st.params = List.map (fun r =>
      { r with hidden_state := some ((last_hidden_state F st.params (r.input_ids.getD [])
          (r.attention_mask.getD [])).headI) }) :=
    funext (extractChunk_eq_map F st.params)
  have hout : (runExtractMap F st ds).2 = ds.map (fun r =>
      { r with hidden_state := some ((last_hidden_state F st.params (r.input_ids.getD [])
          (r.attention_mask.getD [])).headI) }) := by
    rw [runExtractMap_snd, hfun, mapBatched_map]
  have hrow : ∀ r ∈ (runExtractMap F st ds).2, (r.hidden_state.getD []).length = 768 := by
    intro r hr
    rw [hout] at hr
    obtain ⟨r0, hr0, rfl⟩ := List.mem_map.mp hr
    have hne : r0.input_ids.getD [] ≠ [] := by
      intro hnil
      have := hids r0 hr0
      rw [hnil] at this
      simp [model_max_length] at this
    simpa using last_hidden_state_headI_length F st.params _ _ hne
  refine ⟨rfl, hout, ?_, hrow, ?_, ?_⟩
  · rw [hout, List.length_map, hlen]
  · rw [embeds, List.length_map, hout, List.length_map, hlen]
  · intro v hv
    obtain ⟨r, hr, rfl⟩ := List.mem_map.mp hv
    exact hrow r hr

/-- Witness for C2 at the concrete 777-row sample dataset. -/
theorem extract_features_one_vector_per_row_witness :
    sampleDataset.length = 777 ∧
    (∀ r ∈ sampleDataset, (r.input_ids.getD []).length = model_max_length) ∧
    ((runExtractMap F0 ⟨[]⟩ sampleDataset).2.length = 777 ∧
      (∀ r ∈ (runExtractMap F0 ⟨[]⟩ sampleDataset).2, (r.hidden_state.getD []).length = 768) ∧
      (embeds (runExtractMap F0 ⟨[]⟩ sampleDataset).2).length = 777 ∧
      (∀ v ∈ embeds (runExtractMap F0 ⟨[]⟩ sampleDataset).2, v.length = 768)) := by
  have h1 : sampleDataset.length = 777 := by
    rw [sampleDataset, List.length_replicate]
  have h2 : ∀ r ∈ sampleDataset, (r.input_ids.getD []).length = model_max_length := by
    intro r hr
    rw [sampleDataset] at hr
    rw [List.eq_of_mem_replicate hr]
    simp only [sampleRow, Option.getD_some, List.length_replicate]
  have main := extract_features_one_vector_per_row F0 ⟨[]⟩ sampleDataset h1 h2
  exact ⟨h1, h2, main.2.2.1, main.2.2.2.1, main.2.2.2.2.1, main.2.2.2.2.2⟩

/-- C3: `extract_features` leaves the pre-trained model frozen: for every
dataset it is mapped over (hence for every batch processed along the way),
every model parameter after the run equals its value before; feature
extraction never updates the model. -/
theorem extract_features_model_frozen
    (F : List ℚ → List Nat → List Nat → Nat → Nat → ℚ) (st : ModelState) (ds : List Row) :
    (runExtractMap F st ds).1 = st ∧ (runExtractMap F st ds).1.params = st.params :=
  ⟨runExtractMap_fst F st ds, by rw [runExtractMap_fst]⟩

/-- C4: device selection follows the priority cuda, then mps, then cpu —
the device is `cuda` iff CUDA is available, `mps` iff CUDA is not and MPS
is, `cpu` iff neither is — and every subsequent model load and tensor
transfer in the notebook uses this single selected device. -/
theorem selectDevice_priority_and_single_use :
    ∀ cuda_available mps_available : Bool,
      (selectDevice cuda_available mps_available = Device.cuda ↔ cuda_available = true) ∧
      (selectDevice cuda_available mps_available = Device.mps ↔
        (cuda_available = false ∧ mps_available = true)) ∧
      (selectDevice cuda_available mps_available = Device.cpu ↔
        (cuda_available = false ∧ mps_available = false)) ∧
      (∀ d ∈ deviceUses cuda_available mps_available,
        d = selectDevice cuda_available mps_available) := by
  decide

/-- C5 counterexample: the notebook's execution trace, with consecutive
duplicates of a category collapsed, is not the claimed seven-step sequence
"load CSV, tokenize, load models, extract features, fit and score a
regression, fine-tune, print results": the second model load happens after
the regression step, and a result is printed before fine-tuning. -/
theorem notebookTrace_not_claimed_order :
    notebookTrace.destutter (· ≠ ·) ≠
      [Step.loadCSV, Step.tokenize, Step.loadModel, Step.extractFeat,
       Step.regress, Step.fineTune, Step.printResult] := by
  decide

/-- C5 amended: executed top to bottom, the notebook loads the CSV,
tokenizes the text, loads the feature-extraction model, extracts features,
fits and scores the ridge regression, prints (displays) its test R², loads
a second pre-trained model for fine-tuning, runs the fine-tuning training
loop, and prints its results — in this order and no others at this
granularity. -/
theorem notebookTrace_actual_order :
    notebookTrace.destutter (· ≠ ·) =
      [Step.loadCSV, Step.tokenize, Step.loadModel, Step.extractFeat,
       Step.regress, Step.printResult, Step.loadModel, Step.fineTune, Step.printResult] := by
  decide

/-- C6: the notebook defines no exception handling of its own: an error
raised by any underlying library call — pandas failing to read health.csv,
the tokenizer load, or either model download failing — propagates unchanged
to the caller of the run; no stage catches, transforms, or recovers from
it. -/
theorem runNotebook_propagates_errors
    (loadTokenizer : Except String (String → List Nat))
    (loadModel loadModel2 : Except String ModelState)
    (F : List ℚ → List Nat → List Nat → Nat → Nat → ℚ)
    (perm : List Nat) (e : String)
    (df : List (String × ℚ)) (encode : String → List Nat) (m : ModelState) :
    runNotebook (Except.error e) loadTokenizer loadModel loadModel2 F perm
      = Except.error e ∧
    runNotebook (Except.ok df) (Except.error e) loadModel loadModel2 F perm
      = Except.error e ∧
    runNotebook (Except.ok df) (Except.ok encode) (Except.error e) loadModel2 F perm
      = Except.error e ∧
    runNotebook (Except.ok df) (Except.ok encode) (Except.ok m) (Except.error e) F perm
      = Except.error e :=
  ⟨rfl, rfl, rfl, rfl⟩

/-- C7: the data model is rows of a text string and a float label, and every
dataset transformation in the pipeline preserves it: `from_pandas` keeps
the data frame's (text, labels) pairs unchanged; the tokenizing map and the
feature-extraction map keep every row's `text` and `labels` and only add
columns; `set_format` leaves the stored rows untouched; and every row of
either `train_test_split` split is a row of the input dataset. -/
theorem pipeline_preserves_text_labels
    (df : List (String × ℚ)) (encode : String → List Nat)
    (F : List ℚ → List Nat → List Nat → Nat → Nat → ℚ) (st : ModelState)
    (ds : List Row) (d : FormattedDataset) (ftype : String) (cols : List String)
    (perm : List Nat) (ts : ℚ)
    (hperm : ∀ i ∈ perm, i < ds.length) :
    ((from_pandas df).map fun r => (r.text, r.labels)) = df ∧
    ((mapBatched (tokenizeChunk encode) ds).map fun r => (r.text, r.labels))
      = ds.map (fun r => (r.text, r.labels)) ∧
    (((runExtractMap F st ds).2).map fun r => (r.text, r.labels))
      = ds.map (fun r => (r.text, r.labels)) ∧
    (set_format d ftype cols).rows = d.rows ∧
    (∀ r ∈ (train_test_split perm ts ds).1, r ∈ ds) ∧
    (∀ r ∈ (train_test_split perm ts ds).2, r ∈ ds) := by
  refine ⟨?_, ?_, ?_, rfl, ?_, ?_⟩
  · rw [from_pandas, List.map_map]
    rw [show ((fun r : Row => (r.text, r.labels)) ∘ fun p : String × ℚ =>
        ({ text := p.1, labels := p.2 } : Row)) = fun p => p from rfl]
    simp
  · rw [funext (tokenizeChunk_eq_map encode), mapBatched_map, List.map_map]
    rfl
  · rw [runExtractMap_snd, funext (extractChunk_eq_map F st.params), mapBatched_map,
      List.map_map]
    rfl
  · intro r hr
    obtain ⟨i, hi, rfl⟩ := List.mem_map.mp hr
    have himem : i ∈ perm := List.mem_of_mem_drop (List.mem_of_mem_take hi)
    rw [List.getD_eq_getElem ds default (hperm i himem)]
    exact List.getElem_mem _
  · intro r hr
    obtain ⟨i, hi, rfl⟩ := List.mem_map.mp hr
    have himem : i ∈ perm := List.mem_of_mem_take hi
    rw [List.getD_eq_getElem ds default (hperm i himem)]
    exact List.getElem_mem _

/-- Witness for C7 at a concrete data frame, dataset, and index
permutation. -/
theorem pipeline_preserves_text_labels_witness :
    (∀ i ∈ [0], i < [sampleRow].length) ∧
    (((from_pandas [("a", (1 : ℚ))]).map fun r => (r.text, r.labels)) = [("a", (1 : ℚ))] ∧
    ((mapBatched (tokenizeChunk fun _ => []) [sampleRow]).map fun r => (r.text, r.labels))
      = [sampleRow].map (fun r => (r.text, r.labels)) ∧
    (((runExtractMap F0 ⟨[]⟩ [sampleRow]).2).map fun r => (r.text, r.labels))
      = [sampleRow].map (fun r => (r.text, r.labels)) ∧
    (set_format ⟨[], none, none⟩ "torch" ["input_ids", "attention_mask", "labels"]).rows
      = (⟨[], none, none⟩ : FormattedDataset).rows ∧
    (∀ r ∈ (train_test_split [0] (1 / 5) [sampleRow]).1, r ∈ [sampleRow]) ∧
    (∀ r ∈ (train_test_split [0] (1 / 5) [sampleRow]).2, r ∈ [sampleRow])) :=
  ⟨by simp,
    pipeline_preserves_text_labels [("a", (1 : ℚ))] (fun _ => []) F0 ⟨[]⟩ [sampleRow]
      ⟨[], none, none⟩ "torch" ["input_ids", "attention_mask", "labels"] [0] (1 / 5)
      (by simp)⟩

theorem label_variance_eq (refs : List ℚ) :
    label_variance refs = ss_tot refs / refs.length := by
  rw [label_variance, mean, List.length_map]
  rfl

theorem residual_variance_eq (preds refs : List ℚ) (hlen : preds.length = refs.length) :
    residual_variance preds refs = ss_res preds refs / refs.length := by
  rw [residual_variance, mean, List.length_map, List.length_zip, hlen, min_self]
  rfl

theorem r_squared_eq_variance_ratio (preds refs : List ℚ)
    (hlen : preds.length = refs.length) (hvar : label_variance refs ≠ 0) :
    r_squared preds refs = 1 - residual_variance preds refs / label_variance refs := by
  have hn : (refs.length : ℚ) ≠ 0 := by
    intro h0
    rw [Nat.cast_eq_zero] at h0
    apply hvar
    have hnil : refs = [] := List.eq_nil_of_length_eq_zero h0
    subst hnil
    simp [label_variance, mean]
  rw [r_squared, residual_variance_eq preds refs hlen, label_variance_eq]
  rw [div_div_div_comm, div_self hn, div_one]

/-- C8: both evaluation paths compute the coefficient of determination R²:
`compute_metrics` returns a dictionary with the single key `"r_squared"`
whose value is 1 minus the ratio of residual variance to total label
variance, and the feature-extraction path reports the same metric via
`regr.score` on the holdout test set. -/
theorem both_paths_compute_r_squared
    (preds refs : List ℚ) (predict : List ℚ → ℚ) (X : List (List ℚ)) (y : List ℚ)
    (hlen : preds.length = refs.length) (hvar : label_variance refs ≠ 0)
    (hX : X.length = y.length) (hvarY : label_variance y ≠ 0) :
    ((compute_metrics (preds, refs)).map Prod.fst = ["r_squared"]) ∧
    (compute_metrics (preds, refs)).lookup "r_squared"
      = some (1 - residual_variance preds refs / label_variance refs) ∧
    regr_score predict X y
      = 1 - residual_variance (X.map predict) y / label_variance y ∧
    regr_score predict X y = r_squared (X.map predict) y := by
  refine ⟨rfl, ?_, ?_, rfl⟩
  · show some (r_squared preds refs) = _
    rw [r_squared_eq_variance_ratio preds refs hlen hvar]
  · rw [regr_score, r_squared_eq_variance_ratio (X.map predict) y
      (by rw [List.length_map, hX]) hvarY]

/-- Witness for C8 at concrete predictions `[1, 0]` against labels `[0, 1]`
and a one-feature design matrix. -/
theorem both_paths_compute_r_squared_witness :
    ([(1 : ℚ), 0].length = [(0 : ℚ), 1].length) ∧
    (label_variance [(0 : ℚ), 1] ≠ 0) ∧
    (([[(2 : ℚ)], [3]] : List (List ℚ)).length = [(0 : ℚ), 1].length) ∧
    (((compute_metrics ([(1 : ℚ), 0], [(0 : ℚ), 1])).map Prod.fst = ["r_squared"]) ∧
    (compute_metrics ([(1 : ℚ), 0], [(0 : ℚ), 1])).lookup "r_squared"
      = some (1 - residual_variance [(1 : ℚ), 0] [(0 : ℚ), 1]
          / label_variance [(0 : ℚ), 1]) ∧
    regr_score List.sum [[(2 : ℚ)], [3]] [(0 : ℚ), 1]
      = 1 - residual_variance (([[(2 : ℚ)], [3]] : List (List ℚ)).map List.sum) [(0 : ℚ), 1]
          / label_variance [(0 : ℚ), 1] ∧
    regr_score List.sum [[(2 : ℚ)], [3]] [(0 : ℚ), 1]
      = r_squared (([[(2 : ℚ)], [3]] : List (List ℚ)).map List.sum) [(0 : ℚ), 1]) := by
  have hv : label_variance [(0 : ℚ), 1] ≠ 0 := by
    norm_num [label_variance, mean]
  exact ⟨rfl, hv, rfl,
    both_paths_compute_r_squared [(1 : ℚ), 0] [(0 : ℚ), 1] List.sum
      [[(2 : ℚ)], [3]] [(0 : ℚ), 1] rfl hv rfl hv⟩

theorem lookup_filter_mem (names : List String) (k : String) (hk : k ∈ names) :
    ∀ b : List (String × Col),
      (b.filter fun kv => kv.1 ∈ names).lookup k = b.lookup k := by
  intro b
  induction b with
  | nil => rfl
  | cons a t ih =>
      obtain ⟨k', v⟩ := a
      by_cases ha : k' ∈ names
      · rw [List.filter_cons_of_pos (by simpa using ha)]
        simp only [List.lookup]
        cases hbeq : (k == k') with
        | true => rfl
        | false => exact ih
      · rw [List.filter_cons_of_neg (by simpa using ha)]
        have hne : (k == k') = false := by
          rw [beq_eq_false_iff_ne]
          intro hkk
          exact ha (hkk ▸ hk)
        simp only [List.lookup, hne]
        exact ih

/-- C9: the extracted features do not depend on the labels: for every two
batches that agree on their `input_ids` and `attention_mask` entries but
may differ in `labels`, `text`, or any other key, `extract_features`
returns identical outputs, because it filters the batch to the keys in
`tokenizer.model_input_names` before calling the model. -/
theorem extract_features_independent_of_labels
    (F : List ℚ → List Nat → List Nat → Nat → Nat → ℚ) (θ : List ℚ)
    (b1 b2 : List (String × Col))
    (hi : b1.lookup "input_ids" = b2.lookup "input_ids")
    (hm : b1.lookup "attention_mask" = b2.lookup "attention_mask") :
    extract_features F θ b1 = extract_features F θ b2 := by
  simp only [extract_features]
  rw [lookup_filter_mem model_input_names "input_ids" (by simp [model_input_names]) b1,
    lookup_filter_mem model_input_names "input_ids" (by simp [model_input_names]) b2,
    lookup_filter_mem model_input_names "attention_mask" (by simp [model_input_names]) b1,
    lookup_filter_mem model_input_names "attention_mask" (by simp [model_input_names]) b2,
    hi, hm]

/-- Witness for C9: two concrete batches agreeing on `input_ids` (and having
no `attention_mask`) but differing in `labels` and `text` give identical
outputs. -/
theorem extract_features_independent_of_labels_witness :
    ([("input_ids", Col.nats [[1]]), ("labels", Col.rats [0])].lookup "input_ids"
      = [("input_ids", Col.nats [[1]]), ("labels", Col.rats [5]),
         ("text", Col.strs ["x"])].lookup "input_ids") ∧
    ([("input_ids", Col.nats [[1]]), ("labels", Col.rats [0])].lookup "attention_mask"
      = [("input_ids", Col.nats [[1]]), ("labels", Col.rats [5]),
         ("text", Col.strs ["x"])].lookup "attention_mask") ∧
    extract_features F0 [] [("input_ids", Col.nats [[1]]), ("labels", Col.rats [0])]
      = extract_features F0 [] [("input_ids", Col.nats [[1]]), ("labels", Col.rats [5]),
          ("text", Col.strs ["x"])] :=
  ⟨rfl, rfl,
    extract_features_independent_of_labels F0 []
      [("input_ids", Col.nats [[1]]), ("labels", Col.rats [0])]
      [("input_ids", Col.nats [[1]]), ("labels", Col.rats [5]), ("text", Col.strs ["x"])]
      rfl rfl⟩

theorem map_getD_range (ds : List Row) :
    (List.range ds.length).map (fun i => ds.getD i default) = ds := by
  apply List.ext_getElem
  · simp
  · intro i h1 h2
    simp only [List.getElem_map, List.getElem_range]
    rw [List.getD_eq_getElem ds default h2]

theorem n_test_777 : n_test 777 (1 / 5) = 156 := by
  rw [n_test]
  have h : ⌈((777 : Nat) : ℚ) * (1 / 5)⌉ = 156 := by
    rw [Int.ceil_eq_iff]
    norm_num
  rw [h]
  rfl

theorem n_train_777 : n_train 777 (1 / 5) = 621 := by
  rw [n_train]
  have h : ⌊((777 : Nat) : ℚ) * (1 - 1 / 5)⌋ = 621 := by
    rw [Int.floor_eq_iff]
    norm_num
  rw [h]
  rfl

/-- C10: `dat.train_test_split(test_size=0.2, seed=42)` applied to the
777-row dataset partitions it: the train split has exactly 621 rows and the
test split exactly 156, the two splits together are a permutation of the
full dataset, and every row index lands in exactly one of the two index
lists. -/
theorem train_test_split_partitions
    (perm : List Nat) (ds : List Row)
    (hds : ds.length = 777) (hperm : perm.Perm (List.range 777)) :
    n_test 777 (1 / 5) = 156 ∧
    n_train 777 (1 / 5) = 621 ∧
    (train_test_split perm (1 / 5) ds).1.length = 621 ∧
    (train_test_split perm (1 / 5) ds).2.length = 156 ∧
    ((train_test_split perm (1 / 5) ds).1 ++ (train_test_split perm (1 / 5) ds).2).Perm ds ∧
    (∀ i, i < 777 →
      (i ∈ perm.take 156 ∧ i ∉ perm.drop 156) ∨
      (i ∉ perm.take 156 ∧ i ∈ perm.drop 156)) := by
  have hplen : perm.length = 777 := by rw [hperm.length_eq, List.length_range]
  have hnt : n_test ds.length (1 / 5) = 156 := by rw [hds]; exact n_test_777
  have hntr : n_train ds.length (1 / 5) = 621 := by rw [hds]; exact n_train_777
  have hdt : (perm.drop 156).take 621 = perm.drop 156 := by
    apply List.take_of_length_le
    rw [List.length_drop, hplen]
  have htr : (train_test_split perm (1 / 5) ds).1
      = (perm.drop 156).map (fun i => ds.getD i default) := by
    simp only [train_test_split, hnt, hntr, hdt]
  have hte : (train_test_split perm (1 / 5) ds).2
      = (perm.take 156).map (fun i => ds.getD i default) := by
    simp only [train_test_split, hnt, hntr]
  refine ⟨n_test_777, n_train_777, ?_, ?_, ?_, ?_⟩
  · rw [htr, List.length_map, List.length_drop, hplen]
  · rw [hte, List.length_map, List.length_take, hplen]
    exact min_eq_left (by norm_num)
  · have hp3 : ((perm.drop 156) ++ (perm.take 156)).Perm (List.range 777) := by
      refine List.Perm.trans ?_ hperm
      refine List.Perm.trans List.perm_append_comm ?_
      rw [List.take_append_drop]
    have h5 : (List.range 777).map (fun i => ds.getD i default) = ds := by
      rw [← hds, map_getD_range]
    have h6 := hp3.map (fun i => ds.getD i default)
    rw [h5] at h6
    rw [htr, hte, ← List.map_append]
    exact h6
  · have hnd : perm.Nodup := hperm.nodup_iff.mpr (List.nodup_range 777)
    have hsplit : perm.take 156 ++ perm.drop 156 = perm := List.take_append_drop _ _
    have hnd2 : (perm.take 156 ++ perm.drop 156).Nodup := by rw [hsplit]; exact hnd
    have hdisj := (List.nodup_append.mp hnd2).2.2
    intro i hi
    have himem : i ∈ perm := hperm.mem_iff.mpr (List.mem_range.mpr hi)
    rw [← hsplit, List.mem_append] at himem
    cases himem with
    | inl h => exact Or.inl ⟨h, fun h2 => hdisj h h2⟩
    | inr h => exact Or.inr ⟨fun h2 => hdisj h2 h, h⟩

/-- Witness for C10 at the 777-row sample dataset and the identity index
permutation. -/
theorem train_test_split_partitions_witness :
    sampleDataset.length = 777 ∧
    (List.range 777).Perm (List.range 777) ∧
    ((train_test_split (List.range 777) (1 / 5) sampleDataset).1.length = 621 ∧
    (train_test_split (List.range 777) (1 / 5) sampleDataset).2.length = 156 ∧
    ((train_test_split (List.range 777) (1 / 5) sampleDataset).1
      ++ (train_test_split (List.range 777) (1 / 5) sampleDataset).2).Perm sampleDataset ∧
    (∀ i, i < 777 →
      (i ∈ (List.range 777).take 156 ∧ i ∉ (List.range 777).drop 156) ∨
      (i ∉ (List.range 777).take 156 ∧ i ∈ (List.range 777).drop 156))) := by
  have h1 : sampleDataset.length = 777 := by
    rw [sampleDataset, List.length_replicate]
  have main := train_test_split_partitions (List.range 777) sampleDataset h1 (List.Perm.refl _)
  exact ⟨h1, List.Perm.refl _, main.2.2.1, main.2.2.2.1, main.2.2.2.2.1, main.2.2.2.2.2⟩

end Health
